import Mathlib

/-!
Verification of a Stockfighter trading-API HTTP client (a Rust library).
The client issues authenticated GET requests, parses the JSON body, and maps
four endpoint responses (heartbeat, venues, venue heartbeat, stock order book)
into typed values.  We embed the client shallowly: the JSON data model and the
four endpoint mappers are translated from `src/lib.rs`; the outside world
(network plus body parsing, which the code delegates to hyper and serde_json)
is an explicit environment argument.  A Rust `panic` (every `.unwrap()` on a
missing value and the explicit `panic!` on an unknown venue state) is modelled
by the `Outcome.fatal` result, a returned `Err(s)` by `Outcome.err s`, and a
normal return by `Outcome.ok`.
-/

namespace Stockfighter

/-- Generic JSON value, modelling `serde_json::Value` as the code uses it.
Numbers are modelled by the unsigned case (`num`), matching the `as_u64`
accessor, the only numeric accessor the code calls; objects are association
lists (serde's map, looked up by key with `jget`). -/
inductive Json where
  | null
  | bool (b : Bool)
  | num (n : Nat)
  | str (s : String)
  | arr (elems : List Json)
  | obj (fields : List (String × Json))

/-- `Value::as_object`: `Some` of the field map exactly when the value is an
object. -/
def Json.as_object : Json → Option (List (String × Json))
  | .obj fields => some fields
  | _ => none

/-- `Value::as_boolean`: `Some b` exactly when the value is a boolean. -/
def Json.as_boolean : Json → Option Bool
  | .bool b => some b
  | _ => none

/-- `Value::as_string`: `Some s` exactly when the value is a string. -/
def Json.as_string : Json → Option String
  | .str s => some s
  | _ => none

/-- `Value::as_u64`: `Some n` exactly when the value is an (unsigned) number. -/
def Json.as_u64 : Json → Option Nat
  | .num n => some n
  | _ => none

/-- `Value::as_array`: `Some` of the element list exactly when the value is an
array. -/
def Json.as_array : Json → Option (List Json)
  | .arr elems => some elems
  | _ => none

/-- `BTreeMap::get` on a JSON object: the value stored at `key`, if any
(first match; a serde map has unique keys). -/
def jget : List (String × Json) → String → Option Json
  | [], _ => none
  | (k, v) :: rest, key => if k == key then some v else jget rest key

/-- The observable result of one API call.  `fatal` models a Rust panic
(`unwrap` of a missing value, or the explicit `panic!`), `err e` a returned
`Err(e)`, and `ok v` a returned `Ok(v)`. -/
inductive Outcome (α : Type) where
  | fatal
  | err (msg : String)
  | ok (val : α)
deriving DecidableEq

/-- Sequencing of the straight-line Rust code: a panic or an early `return
Err` aborts the rest of the function. -/
def Outcome.bind {α β : Type} : Outcome α → (α → Outcome β) → Outcome β
  | .fatal, _ => .fatal
  | .err e, _ => .err e
  | .ok a, f => f a

/-- `Option::unwrap`: panics on `None`. -/
def unwrapO {α : Type} : Option α → Outcome α
  | none => .fatal
  | some a => .ok a

/-- `Result::unwrap`: panics on `Err`. -/
def unwrapE {α : Type} : Except String α → Outcome α
  | .error _ => .fatal
  | .ok a => .ok a

/-- What the outside world hands back for one GET request: the send itself
failed, or a body that either is not valid JSON (`body none`) or parses to a
JSON value (`body (some j)`).  This is the part the code delegates to hyper
(`req.send()`) and serde_json (`from_reader`). -/
inductive HttpResult where
  | sendFailure
  | body (json : Option Json)

/-- The network environment: the `HttpResult` produced for a given request
URL and `X-Starfighter-Authorization` header value. -/
abbrev Net : Type := String → String → HttpResult

/-- The client configuration: base URL and API key, fixed at construction. -/
structure StockfighterHttpApi where
  base_url : String
  api_key : String

/-- `StockfighterHttpApi::send_raw`: build the URL from base and path, GET it
with the authorization header, and decode the body as JSON.  A failed send is
`Err("Error sending request")`; a body that is not JSON is
`Err("Response body invalid")`. -/
def send_raw (self : StockfighterHttpApi) (net : Net) (path : String) :
    Except String Json :=
  let url := self.base_url ++ path
  match net url self.api_key with
  | .sendFailure => .error "Error sending request"
  | .body none => .error "Response body invalid"
  | .body (some json) => .ok json

/-- `heartbeat`: GET `/heartbeat`, unwrap the transport result, require an
object, read the `ok` boolean; on `false` return the `error` string as `Err`,
otherwise return unit. -/
def heartbeat (self : StockfighterHttpApi) (net : Net) : Outcome Unit :=
  Outcome.bind (unwrapE (send_raw self net "/heartbeat")) fun response =>
  Outcome.bind (unwrapO response.as_object) fun json =>
  Outcome.bind (unwrapO (jget json "ok")) fun okj =>
  Outcome.bind (unwrapO okj.as_boolean) fun ok =>
  if !ok then
    Outcome.bind (unwrapO (jget json "error")) fun ej =>
    Outcome.bind (unwrapO ej.as_string) fun es =>
    Outcome.err es
  else
    Outcome.ok ()

/-- A venue record of the `/venues` response. -/
structure VenueInfo where
  id : Nat
  name : String
  is_open : Bool
  venue : String
deriving DecidableEq

/-- The per-element closure of `venues`: read the `state` string (`"open"` is
open, `"closed"` is closed, anything else panics), then build the `VenueInfo`
from the `id`, `name` and `venue` fields.  The code re-unwraps
`venue.as_object()` before each field access, which we mirror. -/
def parseVenueElem (venue : Json) : Outcome VenueInfo :=
  Outcome.bind (unwrapO venue.as_object) fun vobj =>
  Outcome.bind (unwrapO (jget vobj "state")) fun statej =>
  Outcome.bind (unwrapO statej.as_string) fun state =>
  Outcome.bind
    (if state == "open" then Outcome.ok true
     else if state == "closed" then Outcome.ok false
     else Outcome.fatal) fun is_open =>
  Outcome.bind (unwrapO venue.as_object) fun vobj1 =>
  Outcome.bind (unwrapO (jget vobj1 "id")) fun idj =>
  Outcome.bind (unwrapO idj.as_u64) fun id =>
  Outcome.bind (unwrapO venue.as_object) fun vobj2 =>
  Outcome.bind (unwrapO (jget vobj2 "name")) fun namej =>
  Outcome.bind (unwrapO namej.as_string) fun name =>
  Outcome.bind (unwrapO venue.as_object) fun vobj3 =>
  Outcome.bind (unwrapO (jget vobj3 "venue")) fun venuej =>
  Outcome.bind (unwrapO venuej.as_string) fun venueName =>
  Outcome.ok { id := id, name := name, is_open := is_open, venue := venueName }

/-- `Vec::from_iter` forcing a `map` over a source list: each element is
mapped in order; the first panic (or error) aborts the whole collection. -/
def mapOutcome {α β : Type} (f : α → Outcome β) : List α → Outcome (List β)
  | [] => .ok []
  | x :: xs =>
    Outcome.bind (f x) fun y =>
    Outcome.bind (mapOutcome f xs) fun ys =>
    Outcome.ok (y :: ys)

/-- `venues`: GET `/venues`, unwrap, require an object, read the success flag
from the `id` field (the code preserves this upstream quirk: `id`, not `ok`);
on `false` return the `error` string, otherwise map the `venues` array into
`VenueInfo` records. -/
def venues (self : StockfighterHttpApi) (net : Net) :
    Outcome (List VenueInfo) :=
  Outcome.bind (unwrapE (send_raw self net "/venues")) fun response =>
  Outcome.bind (unwrapO response.as_object) fun json =>
  Outcome.bind (unwrapO (jget json "id")) fun okj =>
  Outcome.bind (unwrapO okj.as_boolean) fun ok =>
  if !ok then
    Outcome.bind (unwrapO (jget json "error")) fun ej =>
    Outcome.bind (unwrapO ej.as_string) fun es =>
    Outcome.err es
  else
    Outcome.bind (unwrapO (jget json "venues")) fun varrj =>
    Outcome.bind (unwrapO varrj.as_array) fun varr =>
    Outcome.bind (mapOutcome parseVenueElem varr) fun vs =>
    Outcome.ok vs

/-- `venue_heartbeat`: GET `/venues/{venue}/heartbeat`; same shape as
`heartbeat`. -/
def venue_heartbeat (self : StockfighterHttpApi) (net : Net)
    (venue : String) : Outcome Unit :=
  Outcome.bind
    (unwrapE (send_raw self net ("/venues/" ++ venue ++ "/heartbeat")))
    fun response =>
  Outcome.bind (unwrapO response.as_object) fun json =>
  Outcome.bind (unwrapO (jget json "ok")) fun okj =>
  Outcome.bind (unwrapO okj.as_boolean) fun ok =>
  if !ok then
    Outcome.bind (unwrapO (jget json "error")) fun ej =>
    Outcome.bind (unwrapO ej.as_string) fun es =>
    Outcome.err es
  else
    Outcome.ok ()

/-- A calendar date-time, the payload of a parsed `ts` field (chrono's
`NaiveDateTime`: the offset is parsed but not stored). -/
structure Timestamp where
  year : Nat
  month : Nat
  day : Nat
  hour : Nat
  minute : Nat
  second : Nat
  nano : Nat
deriving DecidableEq

/-- The numeric value of a decimal digit character, if it is one. -/
def digitVal (c : Char) : Option Nat :=
  if c.isDigit then some (c.toNat - 48) else none

/-- Read exactly `n` decimal digits from the front of the input, accumulating
their value; fails if a non-digit (or the end) is met first. -/
def readDigitsAux : Nat → Nat → List Char → Option (Nat × List Char)
  | 0, acc, cs => some (acc, cs)
  | n + 1, acc, c :: cs =>
    match digitVal c with
    | some d => readDigitsAux n (acc * 10 + d) cs
    | none => none
  | _ + 1, _, [] => none

/-- Consume the next character if it is `c`; fail otherwise. -/
def expectChar (c : Char) : List Char → Option (List Char)
  | d :: cs => if d == c then some cs else none
  | [] => none

/-- Split off the maximal run of leading decimal digits. -/
def spanDigits : List Char → (List Nat × List Char)
  | c :: cs =>
    match digitVal c with
    | some d =>
      let p := spanDigits cs
      (d :: p.1, p.2)
    | none => ([], c :: cs)
  | [] => ([], [])

/-- Nanoseconds denoted by a fractional-second digit string: the first nine
digits, right-padded with zeros (further digits only add precision that is
discarded). -/
def nanoOfDigits (ds : List Nat) : Nat :=
  (List.take 9 (ds ++ List.replicate 9 0)).foldl (fun a d => a * 10 + d) 0

/-- Gregorian leap year. -/
def isLeap (y : Nat) : Bool :=
  (y % 4 == 0 && y % 100 != 0) || y % 400 == 0

/-- Number of days in a month of a given year. -/
def daysInMonth (y m : Nat) : Nat :=
  if m == 2 then (if isLeap y then 29 else 28)
  else if m == 4 || m == 6 || m == 9 || m == 11 then 30
  else 31

/-- Consume a numeric UTC offset: `Z` (or `z`), or a sign followed by
`HH:MM` with valid ranges. -/
def parseOffset : List Char → Option (List Char)
  | 'Z' :: cs => some cs
  | 'z' :: cs => some cs
  | c :: cs =>
    if c == '+' || c == '-' then
      (readDigitsAux 2 0 cs).bind fun oh =>
      (expectChar ':' oh.2).bind fun cs1 =>
      (readDigitsAux 2 0 cs1).bind fun om =>
      if oh.1 > 23 || om.1 > 59 then none else some om.2
    else none
  | [] => none

/-- Modelled from the spec: the strict ISO-8601-with-offset timestamp format
(chrono's `NaiveDateTime::parse_from_str` with the `%+` format string — a
library dependency, not code of this repository).  The whole input must be
`YYYY-MM-DDTHH:MM:SS`, an optional fractional-second part, and a mandatory
offset (`Z` or `±HH:MM`), with calendar-valid fields; anything else fails. -/
def parseIso8601 (s : String) : Option Timestamp :=
  (readDigitsAux 4 0 s.toList).bind fun y =>
  (expectChar '-' y.2).bind fun c1 =>
  (readDigitsAux 2 0 c1).bind fun mo =>
  (expectChar '-' mo.2).bind fun c2 =>
  (readDigitsAux 2 0 c2).bind fun d =>
  (expectChar 'T' d.2).bind fun c3 =>
  (readDigitsAux 2 0 c3).bind fun h =>
  (expectChar ':' h.2).bind fun c4 =>
  (readDigitsAux 2 0 c4).bind fun mi =>
  (expectChar ':' mi.2).bind fun c5 =>
  (readDigitsAux 2 0 c5).bind fun sec =>
  (match sec.2 with
   | '.' :: rest =>
     let p := spanDigits rest
     if p.1.isEmpty then none else some (nanoOfDigits p.1, p.2)
   | cs => some (0, cs)).bind fun fr =>
  (parseOffset fr.2).bind fun cs =>
  if mo.1 < 1 || mo.1 > 12 then none
  else if d.1 < 1 || d.1 > daysInMonth y.1 mo.1 then none
  else if h.1 > 23 || mi.1 > 59 || sec.1 > 60 then none
  else if cs.isEmpty then
    some { year := y.1, month := mo.1, day := d.1, hour := h.1,
           minute := mi.1, second := sec.1, nano := fr.1 }
  else none

/-- A resting order of an order-book snapshot: `is_buy` is true for a bid and
false for an ask. -/
structure Order where
  price : Nat
  qty : Nat
  is_buy : Bool
deriving DecidableEq

/-- An order-book snapshot. -/
structure Orderbook where
  bids : List Order
  asks : List Order
  timestamp : Timestamp
deriving DecidableEq

/-- The per-element closure over the `bids` array: an `Order` with the
element's `price` and `qty` fields and `is_buy = true`. -/
def parseBidElem (bid : Json) : Outcome Order :=
  Outcome.bind (unwrapO bid.as_object) fun bobj =>
  Outcome.bind (unwrapO (jget bobj "price")) fun pj =>
  Outcome.bind (unwrapO pj.as_u64) fun price =>
  Outcome.bind (unwrapO bid.as_object) fun bobj1 =>
  Outcome.bind (unwrapO (jget bobj1 "qty")) fun qj =>
  Outcome.bind (unwrapO qj.as_u64) fun qty =>
  Outcome.ok { price := price, qty := qty, is_buy := true }

/-- The per-element closure over the `asks` array: an `Order` with the
element's `price` and `qty` fields and `is_buy = false`. -/
def parseAskElem (ask : Json) : Outcome Order :=
  Outcome.bind (unwrapO ask.as_object) fun aobj =>
  Outcome.bind (unwrapO (jget aobj "price")) fun pj =>
  Outcome.bind (unwrapO pj.as_u64) fun price =>
  Outcome.bind (unwrapO ask.as_object) fun aobj1 =>
  Outcome.bind (unwrapO (jget aobj1 "qty")) fun qj =>
  Outcome.bind (unwrapO qj.as_u64) fun qty =>
  Outcome.ok { price := price, qty := qty, is_buy := false }

/-- `stock_orderbook`: GET `/venues/{venue}/stocks/{stock}`, unwrap, require
an object, read the `ok` boolean; on `false` return the `error` string.
Otherwise unwrap the `bids` and `asks` arrays and the `ts` string (these
lookups are eager), parse `ts` with the strict ISO-8601 format and unwrap,
then force the two element maps in order and build the `Orderbook`. -/
def stock_orderbook (self : StockfighterHttpApi) (net : Net)
    (venue stock : String) : Outcome Orderbook :=
  Outcome.bind
    (unwrapE (send_raw self net ("/venues/" ++ venue ++ "/stocks/" ++ stock)))
    fun response =>
  Outcome.bind (unwrapO response.as_object) fun json =>
  Outcome.bind (unwrapO (jget json "ok")) fun okj =>
  Outcome.bind (unwrapO okj.as_boolean) fun ok =>
  if !ok then
    Outcome.bind (unwrapO (jget json "error")) fun ej =>
    Outcome.bind (unwrapO ej.as_string) fun es =>
    Outcome.err es
  else
    Outcome.bind (unwrapO (jget json "bids")) fun bidsj =>
    Outcome.bind (unwrapO bidsj.as_array) fun bidsArr =>
    Outcome.bind (unwrapO (jget json "asks")) fun asksj =>
    Outcome.bind (unwrapO asksj.as_array) fun asksArr =>
    Outcome.bind (unwrapO (jget json "ts")) fun tsj =>
    Outcome.bind (unwrapO tsj.as_string) fun tss =>
    Outcome.bind (unwrapO (parseIso8601 tss)) fun timestamp =>
    Outcome.bind (mapOutcome parseBidElem bidsArr) fun bids =>
    Outcome.bind (mapOutcome parseAskElem asksArr) fun asks =>
    Outcome.ok { bids := bids, asks := asks, timestamp := timestamp }

/-! ## Helper lemmas -/

theorem mapOutcome_length {α β : Type} (f : α → Outcome β) :
    ∀ (l : List α) (r : List β), mapOutcome f l = .ok r → r.length = l.length
  | [], r, h => by
    simp [mapOutcome] at h
    simp [h.symm]
  | x :: xs, r, h => by
    cases hfx : f x with
    | fatal => simp [mapOutcome, hfx, Outcome.bind] at h
    | err e => simp [mapOutcome, hfx, Outcome.bind] at h
    | ok y =>
      cases hrec : mapOutcome f xs with
      | fatal => simp [mapOutcome, hfx, hrec, Outcome.bind] at h
      | err e => simp [mapOutcome, hfx, hrec, Outcome.bind] at h
      | ok ys =>
        simp [mapOutcome, hfx, hrec, Outcome.bind] at h
        subst h
        simp [mapOutcome_length f xs ys hrec]

theorem mapOutcome_get? {α β : Type} (f : α → Outcome β) :
    ∀ (l : List α) (r : List β), mapOutcome f l = .ok r →
      ∀ (i : Nat) (x : α), l[i]? = some x →
        ∃ y, r[i]? = some y ∧ f x = .ok y
  | [], _, _, i, x, hx => by simp at hx
  | x0 :: xs, r, h, i, x, hx => by
    cases hfx : f x0 with
    | fatal => simp [mapOutcome, hfx, Outcome.bind] at h
    | err e => simp [mapOutcome, hfx, Outcome.bind] at h
    | ok y =>
      cases hrec : mapOutcome f xs with
      | fatal => simp [mapOutcome, hfx, hrec, Outcome.bind] at h
      | err e => simp [mapOutcome, hfx, hrec, Outcome.bind] at h
      | ok ys =>
        simp [mapOutcome, hfx, hrec, Outcome.bind] at h
        subst h
        cases i with
        | zero =>
          simp at hx
          subst hx
          exact ⟨y, by simp, hfx⟩
        | succ j =>
          simp at hx ⊢
          exact mapOutcome_get? f xs ys hrec j x hx

theorem mapOutcome_mem {α β : Type} (f : α → Outcome β) :
    ∀ (l : List α) (r : List β), mapOutcome f l = .ok r →
      ∀ y ∈ r, ∃ x ∈ l, f x = .ok y
  | [], r, h, y, hy => by
    simp [mapOutcome] at h
    subst h
    simp at hy
  | x0 :: xs, r, h, y, hy => by
    cases hfx : f x0 with
    | fatal => simp [mapOutcome, hfx, Outcome.bind] at h
    | err e => simp [mapOutcome, hfx, Outcome.bind] at h
    | ok y0 =>
      cases hrec : mapOutcome f xs with
      | fatal => simp [mapOutcome, hfx, hrec, Outcome.bind] at h
      | err e => simp [mapOutcome, hfx, hrec, Outcome.bind] at h
      | ok ys =>
        simp [mapOutcome, hfx, hrec, Outcome.bind] at h
        subst h
        rcases List.mem_cons.mp hy with hy0 | hmem
        · exact ⟨x0, List.mem_cons_self _ _, hy0 ▸ hfx⟩
        · rcases mapOutcome_mem f xs ys hrec y hmem with ⟨x, hx, hfxy⟩
          exact ⟨x, List.mem_cons_of_mem _ hx, hfxy⟩

theorem Outcome.bind_ok {α β : Type} {x : Outcome α} {f : α → Outcome β}
    {b : β} (h : Outcome.bind x f = .ok b) : ∃ a, x = .ok a ∧ f a = .ok b := by
  cases x with
  | fatal => simp [Outcome.bind] at h
  | err e => simp [Outcome.bind] at h
  | ok a => exact ⟨a, rfl, h⟩

theorem parseBidElem_is_buy (j : Json) (o : Order)
    (h : parseBidElem j = .ok o) : o.is_buy = true := by
  unfold parseBidElem at h
  obtain ⟨a1, -, h⟩ := Outcome.bind_ok h
  obtain ⟨a2, -, h⟩ := Outcome.bind_ok h
  obtain ⟨a3, -, h⟩ := Outcome.bind_ok h
  obtain ⟨a4, -, h⟩ := Outcome.bind_ok h
  obtain ⟨a5, -, h⟩ := Outcome.bind_ok h
  obtain ⟨a6, -, h⟩ := Outcome.bind_ok h
  cases h
  rfl

theorem parseAskElem_is_buy (j : Json) (o : Order)
    (h : parseAskElem j = .ok o) : o.is_buy = false := by
  unfold parseAskElem at h
  obtain ⟨a1, -, h⟩ := Outcome.bind_ok h
  obtain ⟨a2, -, h⟩ := Outcome.bind_ok h
  obtain ⟨a3, -, h⟩ := Outcome.bind_ok h
  obtain ⟨a4, -, h⟩ := Outcome.bind_ok h
  obtain ⟨a5, -, h⟩ := Outcome.bind_ok h
  obtain ⟨a6, -, h⟩ := Outcome.bind_ok h
  cases h
  rfl

theorem parseBidElem_fields (e : List (String × Json)) (p q : Nat)
    (hp : jget e "price" = some (.num p))
    (hq : jget e "qty" = some (.num q)) :
    parseBidElem (.obj e) = .ok { price := p, qty := q, is_buy := true } := by
  simp [parseBidElem, unwrapO, Outcome.bind, Json.as_object, Json.as_u64,
    hp, hq]

theorem parseAskElem_fields (e : List (String × Json)) (p q : Nat)
    (hp : jget e "price" = some (.num p))
    (hq : jget e "qty" = some (.num q)) :
    parseAskElem (.obj e) = .ok { price := p, qty := q, is_buy := false } := by
  simp [parseAskElem, unwrapO, Outcome.bind, Json.as_object, Json.as_u64,
    hp, hq]

/-! ## Concrete fixtures used by witnesses -/

/-- A concrete client configuration. -/
def apiW : StockfighterHttpApi := { base_url := "http://api", api_key := "key" }

/-- A network environment answering every request with the same parsed JSON
object. -/
def netOf (m : List (String × Json)) : Net :=
  fun _ _ => .body (some (.obj m))

/-! ## Claims -/

/-- C1: for every endpoint mapper (heartbeat, venues, venue_heartbeat,
stock_orderbook), if the response's success-flag field (`ok`, or `id` for
venues) is the boolean false and the response carries an `error` string, the
call returns `Err` of exactly that string. -/
theorem flag_false_returns_error_text
    (self : StockfighterHttpApi) (net : Net) (m : List (String × Json))
    (s venue stock : String)
    (hnet : ∀ url key, net url key = .body (some (.obj m)))
    (hok : jget m "ok" = some (.bool false))
    (hid : jget m "id" = some (.bool false))
    (herr : jget m "error" = some (.str s)) :
    heartbeat self net = .err s ∧
    venues self net = .err s ∧
    venue_heartbeat self net venue = .err s ∧
    stock_orderbook self net venue stock = .err s := by
  refine ⟨?_, ?_, ?_, ?_⟩ <;>
    simp [heartbeat, venues, venue_heartbeat, stock_orderbook, send_raw,
      unwrapE, unwrapO, Outcome.bind, Json.as_object, Json.as_boolean,
      Json.as_string, hnet, hok, hid, herr]

theorem flag_false_returns_error_text_witness :
    heartbeat apiW
        (netOf [("ok", .bool false), ("id", .bool false),
                ("error", .str "down")]) = .err "down" ∧
    venues apiW
        (netOf [("ok", .bool false), ("id", .bool false),
                ("error", .str "down")]) = .err "down" ∧
    venue_heartbeat apiW
        (netOf [("ok", .bool false), ("id", .bool false),
                ("error", .str "down")]) "TESTEX" = .err "down" ∧
    stock_orderbook apiW
        (netOf [("ok", .bool false), ("id", .bool false),
                ("error", .str "down")]) "TESTEX" "FOOBAR" = .err "down" :=
  flag_false_returns_error_text apiW
    (netOf [("ok", .bool false), ("id", .bool false), ("error", .str "down")])
    [("ok", .bool false), ("id", .bool false), ("error", .str "down")]
    "down" "TESTEX" "FOOBAR" (fun _ _ => rfl) rfl rfl rfl

/-- C2: the venues operation reads its success flag from the top-level field
named `id`, not `ok`: a response whose `id` is false takes the failure branch
(here with `ok` left entirely unconstrained, so it may be true or absent),
and a response whose `id` is true takes the success branch. -/
theorem venues_flag_is_id_field
    (self : StockfighterHttpApi) (netF netT : Net)
    (mF mT : List (String × Json)) (s : String)
    (hnetF : ∀ url key, netF url key = .body (some (.obj mF)))
    (hidF : jget mF "id" = some (.bool false))
    (herrF : jget mF "error" = some (.str s))
    (hnetT : ∀ url key, netT url key = .body (some (.obj mT)))
    (hidT : jget mT "id" = some (.bool true))
    (hvs : jget mT "venues" = some (.arr [])) :
    venues self netF = .err s ∧ venues self netT = .ok [] := by
  constructor
  · simp [venues, send_raw, unwrapE, unwrapO, Outcome.bind, Json.as_object,
      Json.as_boolean, Json.as_string, hnetF, hidF, herrF]
  · simp [venues, send_raw, unwrapE, unwrapO, Outcome.bind, Json.as_object,
      Json.as_boolean, Json.as_array, mapOutcome, hnetT, hidT, hvs]

theorem venues_flag_is_id_field_witness :
    venues apiW
        (netOf [("ok", .bool true), ("id", .bool false),
                ("error", .str "oops")]) = .err "oops" ∧
    venues apiW
        (netOf [("ok", .bool false), ("id", .bool true),
                ("venues", .arr [])]) = .ok [] :=
  venues_flag_is_id_field apiW
    (netOf [("ok", .bool true), ("id", .bool false), ("error", .str "oops")])
    (netOf [("ok", .bool false), ("id", .bool true), ("venues", .arr [])])
    [("ok", .bool true), ("id", .bool false), ("error", .str "oops")]
    [("ok", .bool false), ("id", .bool true), ("venues", .arr [])]
    "oops" (fun _ _ => rfl) rfl rfl (fun _ _ => rfl) rfl rfl

/-- C7: send_raw yields the `RequestFailed`-class error
(`"Error sending request"`) exactly when the HTTP send fails, and the
`InvalidResponseBody`-class error (`"Response body invalid"`) exactly when
the body is not valid JSON; the two error texts are distinct.  The call is a
single request/response exchange — the result is fully determined by the one
`HttpResult` the environment returns, so no retry is attempted. -/
theorem send_raw_error_classes
    (self : StockfighterHttpApi) (net : Net) (path : String) :
    (send_raw self net path = .error "Error sending request" ↔
       net (self.base_url ++ path) self.api_key = .sendFailure) ∧
    (send_raw self net path = .error "Response body invalid" ↔
       net (self.base_url ++ path) self.api_key = .body none) ∧
    ("Error sending request" : String) ≠ "Response body invalid" := by
  refine ⟨?_, ?_, by decide⟩ <;>
  · rcases hr : net (self.base_url ++ path) self.api_key with _ | (_ | j) <;>
      simp [send_raw, hr]

/-- C10: for heartbeat and venue_heartbeat, any response object whose `ok`
field is the boolean true yields unit success, whatever other fields are
present or absent (`m` is otherwise unconstrained, so in particular the
`error` field is never consulted on this path). -/
theorem ok_true_returns_unit
    (self : StockfighterHttpApi) (net : Net) (m : List (String × Json))
    (venue : String)
    (hnet : ∀ url key, net url key = .body (some (.obj m)))
    (hok : jget m "ok" = some (.bool true)) :
    heartbeat self net = .ok () ∧ venue_heartbeat self net venue = .ok () := by
  constructor <;>
    simp [heartbeat, venue_heartbeat, send_raw, unwrapE, unwrapO,
      Outcome.bind, Json.as_object, Json.as_boolean, hnet, hok]

theorem ok_true_returns_unit_witness :
    heartbeat apiW
        (netOf [("ok", .bool true), ("error", .num 7)]) = .ok () ∧
    venue_heartbeat apiW
        (netOf [("ok", .bool true), ("error", .num 7)]) "TESTEX" = .ok () :=
  ok_true_returns_unit apiW (netOf [("ok", .bool true), ("error", .num 7)])
    [("ok", .bool true), ("error", .num 7)] "TESTEX" (fun _ _ => rfl) rfl

/-- C5 counterexample: the claim says a failing transport step makes the
mapper return the transport error as its own error value and never crash; in
the code every mapper immediately `.unwrap()`s the `send_raw` result, so a
failed send panics (`fatal`), and neither transport error text is ever
returned. -/
theorem transport_error_not_propagated :
    heartbeat apiW (fun _ _ => .sendFailure) = .fatal ∧
    heartbeat apiW (fun _ _ => .sendFailure) ≠ .err "Error sending request" ∧
    heartbeat apiW (fun _ _ => .body none) = .fatal ∧
    heartbeat apiW (fun _ _ => .body none) ≠ .err "Response body invalid" :=
  ⟨rfl, by decide, rfl, by decide⟩

/-- C5 amended: when the transport step fails (failed send, or a body that is
not valid JSON), every endpoint mapper unwraps the transport result and
panics; the transport error is never returned as the call's error value. -/
theorem transport_error_panics
    (self : StockfighterHttpApi) (netS netB : Net) (venue stock : String)
    (hnetS : ∀ url key, netS url key = .sendFailure)
    (hnetB : ∀ url key, netB url key = .body none) :
    heartbeat self netS = .fatal ∧ venues self netS = .fatal ∧
    venue_heartbeat self netS venue = .fatal ∧
    stock_orderbook self netS venue stock = .fatal ∧
    heartbeat self netB = .fatal ∧ venues self netB = .fatal ∧
    venue_heartbeat self netB venue = .fatal ∧
    stock_orderbook self netB venue stock = .fatal := by
  refine ⟨?_, ?_, ?_, ?_, ?_, ?_, ?_, ?_⟩ <;>
    simp [heartbeat, venues, venue_heartbeat, stock_orderbook, send_raw,
      unwrapE, Outcome.bind, hnetS, hnetB]

theorem transport_error_panics_witness :
    heartbeat apiW (fun _ _ => .sendFailure) = .fatal ∧
    venues apiW (fun _ _ => .sendFailure) = .fatal ∧
    venue_heartbeat apiW (fun _ _ => .sendFailure) "TESTEX" = .fatal ∧
    stock_orderbook apiW (fun _ _ => .sendFailure) "TESTEX" "FOOBAR"
      = .fatal ∧
    heartbeat apiW (fun _ _ => .body none) = .fatal ∧
    venues apiW (fun _ _ => .body none) = .fatal ∧
    venue_heartbeat apiW (fun _ _ => .body none) "TESTEX" = .fatal ∧
    stock_orderbook apiW (fun _ _ => .body none) "TESTEX" "FOOBAR"
      = .fatal :=
  transport_error_panics apiW (fun _ _ => .sendFailure)
    (fun _ _ => .body none) "TESTEX" "FOOBAR"
    (fun _ _ => rfl) (fun _ _ => rfl)

/-- C6 counterexample: the claim says a missing required field yields a typed
shape error and never a crash; on the response object `{}` (the `ok` field
missing) heartbeat panics — a crash, not a returned error value. -/
theorem missing_field_not_typed_error :
    heartbeat apiW (netOf []) = .fatal ∧
    (∀ s, heartbeat apiW (netOf []) ≠ .err s) :=
  ⟨rfl, fun s => by simp [heartbeat, netOf, apiW, send_raw, unwrapE, unwrapO,
    Outcome.bind, Json.as_object, jget]⟩

/-- C6 amended: if a required field of an otherwise well-formed response
object is missing or has the wrong JSON type, the call panics (`fatal`) — it
never returns normally, so no default value is ever substituted.  Covered
cases: the success-flag field missing (`mA`); the success-flag field present
but not a boolean (`mB`); the flag true but the payload fields (`venues`,
`bids`) missing (`mC`). -/
theorem missing_field_panics
    (self : StockfighterHttpApi) (netA netB netC : Net)
    (mA mB mC : List (String × Json)) (jB jB' : Json) (venue stock : String)
    (hnetA : ∀ url key, netA url key = .body (some (.obj mA)))
    (hokA : jget mA "ok" = none) (hidA : jget mA "id" = none)
    (hnetB : ∀ url key, netB url key = .body (some (.obj mB)))
    (hokB : jget mB "ok" = some jB) (hbB : jB.as_boolean = none)
    (hidB : jget mB "id" = some jB') (hbB' : jB'.as_boolean = none)
    (hnetC : ∀ url key, netC url key = .body (some (.obj mC)))
    (hokC : jget mC "ok" = some (.bool true))
    (hidC : jget mC "id" = some (.bool true))
    (hvsC : jget mC "venues" = none) (hbidsC : jget mC "bids" = none) :
    heartbeat self netA = .fatal ∧ venues self netA = .fatal ∧
    venue_heartbeat self netA venue = .fatal ∧
    stock_orderbook self netA venue stock = .fatal ∧
    heartbeat self netB = .fatal ∧ venues self netB = .fatal ∧
    venue_heartbeat self netB venue = .fatal ∧
    stock_orderbook self netB venue stock = .fatal ∧
    venues self netC = .fatal ∧
    stock_orderbook self netC venue stock = .fatal := by
  refine ⟨?_, ?_, ?_, ?_, ?_, ?_, ?_, ?_, ?_, ?_⟩
  · simp [heartbeat, send_raw, unwrapE, unwrapO, Outcome.bind,
      Json.as_object, hnetA, hokA]
  · simp [venues, send_raw, unwrapE, unwrapO, Outcome.bind,
      Json.as_object, hnetA, hidA]
  · simp [venue_heartbeat, send_raw, unwrapE, unwrapO, Outcome.bind,
      Json.as_object, hnetA, hokA]
  · simp [stock_orderbook, send_raw, unwrapE, unwrapO, Outcome.bind,
      Json.as_object, hnetA, hokA]
  · simp [heartbeat, send_raw, unwrapE, unwrapO, Outcome.bind,
      Json.as_object, hnetB, hokB, hbB]
  · simp [venues, send_raw, unwrapE, unwrapO, Outcome.bind,
      Json.as_object, hnetB, hidB, hbB']
  · simp [venue_heartbeat, send_raw, unwrapE, unwrapO, Outcome.bind,
      Json.as_object, hnetB, hokB, hbB]
  · simp [stock_orderbook, send_raw, unwrapE, unwrapO, Outcome.bind,
      Json.as_object, hnetB, hokB, hbB]
  · simp [venues, send_raw, unwrapE, unwrapO, Outcome.bind,
      Json.as_object, Json.as_boolean, hnetC, hidC, hvsC]
  · simp [stock_orderbook, send_raw, unwrapE, unwrapO, Outcome.bind,
      Json.as_object, Json.as_boolean, hnetC, hokC, hbidsC]

theorem missing_field_panics_witness :
    heartbeat apiW (netOf [("other", .num 1)]) = .fatal ∧
    venues apiW (netOf [("other", .num 1)]) = .fatal ∧
    venue_heartbeat apiW (netOf [("other", .num 1)]) "TESTEX" = .fatal ∧
    stock_orderbook apiW (netOf [("other", .num 1)]) "TESTEX" "FOOBAR"
      = .fatal ∧
    heartbeat apiW (netOf [("ok", .str "yes"), ("id", .str "yes")])
      = .fatal ∧
    venues apiW (netOf [("ok", .str "yes"), ("id", .str "yes")]) = .fatal ∧
    venue_heartbeat apiW (netOf [("ok", .str "yes"), ("id", .str "yes")])
      "TESTEX" = .fatal ∧
    stock_orderbook apiW (netOf [("ok", .str "yes"), ("id", .str "yes")])
      "TESTEX" "FOOBAR" = .fatal ∧
    venues apiW (netOf [("ok", .bool true), ("id", .bool true)]) = .fatal ∧
    stock_orderbook apiW (netOf [("ok", .bool true), ("id", .bool true)])
      "TESTEX" "FOOBAR" = .fatal :=
  missing_field_panics apiW (netOf [("other", .num 1)])
    (netOf [("ok", .str "yes"), ("id", .str "yes")])
    (netOf [("ok", .bool true), ("id", .bool true)])
    [("other", .num 1)] [("ok", .str "yes"), ("id", .str "yes")]
    [("ok", .bool true), ("id", .bool true)]
    (.str "yes") (.str "yes") "TESTEX" "FOOBAR"
    (fun _ _ => rfl) rfl rfl
    (fun _ _ => rfl) rfl rfl rfl rfl
    (fun _ _ => rfl) rfl rfl rfl rfl

/-- C9: when the success flag is false but the `error` field is absent
(`mA`) or present with a non-string value (`mB`), every endpoint mapper
panics instead of returning any error value; the recoverable `Err` branch is
reached only when `error` is a string. -/
theorem flag_false_without_error_string_panics
    (self : StockfighterHttpApi) (netA netB : Net)
    (mA mB : List (String × Json)) (jB : Json) (venue stock : String)
    (hnetA : ∀ url key, netA url key = .body (some (.obj mA)))
    (hokA : jget mA "ok" = some (.bool false))
    (hidA : jget mA "id" = some (.bool false))
    (herrA : jget mA "error" = none)
    (hnetB : ∀ url key, netB url key = .body (some (.obj mB)))
    (hokB : jget mB "ok" = some (.bool false))
    (hidB : jget mB "id" = some (.bool false))
    (herrB : jget mB "error" = some jB) (hsB : jB.as_string = none) :
    heartbeat self netA = .fatal ∧ venues self netA = .fatal ∧
    venue_heartbeat self netA venue = .fatal ∧
    stock_orderbook self netA venue stock = .fatal ∧
    heartbeat self netB = .fatal ∧ venues self netB = .fatal ∧
    venue_heartbeat self netB venue = .fatal ∧
    stock_orderbook self netB venue stock = .fatal := by
  refine ⟨?_, ?_, ?_, ?_, ?_, ?_, ?_, ?_⟩ <;>
    simp [heartbeat, venues, venue_heartbeat, stock_orderbook, send_raw,
      unwrapE, unwrapO, Outcome.bind, Json.as_object, Json.as_boolean,
      hnetA, hokA, hidA, herrA, hnetB, hokB, hidB, herrB, hsB]

theorem flag_false_without_error_string_panics_witness :
    heartbeat apiW (netOf [("ok", .bool false), ("id", .bool false)])
      = .fatal ∧
    venues apiW (netOf [("ok", .bool false), ("id", .bool false)])
      = .fatal ∧
    venue_heartbeat apiW (netOf [("ok", .bool false), ("id", .bool false)])
      "TESTEX" = .fatal ∧
    stock_orderbook apiW (netOf [("ok", .bool false), ("id", .bool false)])
      "TESTEX" "FOOBAR" = .fatal ∧
    heartbeat apiW
      (netOf [("ok", .bool false), ("id", .bool false), ("error", .num 3)])
      = .fatal ∧
    venues apiW
      (netOf [("ok", .bool false), ("id", .bool false), ("error", .num 3)])
      = .fatal ∧
    venue_heartbeat apiW
      (netOf [("ok", .bool false), ("id", .bool false), ("error", .num 3)])
      "TESTEX" = .fatal ∧
    stock_orderbook apiW
      (netOf [("ok", .bool false), ("id", .bool false), ("error", .num 3)])
      "TESTEX" "FOOBAR" = .fatal :=
  flag_false_without_error_string_panics apiW
    (netOf [("ok", .bool false), ("id", .bool false)])
    (netOf [("ok", .bool false), ("id", .bool false), ("error", .num 3)])
    [("ok", .bool false), ("id", .bool false)]
    [("ok", .bool false), ("id", .bool false), ("error", .num 3)]
    (.num 3) "TESTEX" "FOOBAR"
    (fun _ _ => rfl) rfl rfl rfl
    (fun _ _ => rfl) rfl rfl rfl rfl

/-- C3: on a successful order-book response, stock_orderbook maps each `bids`
element to an `Order` with `is_buy = true` and each `asks` element to an
`Order` with `is_buy = false`, taking `price` and `qty` from the element's
fields; the resulting lists have the same length as the source arrays and
correspond index by index (no sorting, filtering, or deduplication), with
`is_buy` fixed by the source array alone. -/
theorem orderbook_maps_bids_and_asks
    (self : StockfighterHttpApi) (net : Net) (m : List (String × Json))
    (bl al : List Json) (ts venue stock : String) (T : Timestamp)
    (B A : List Order)
    (hnet : ∀ url key, net url key = .body (some (.obj m)))
    (hok : jget m "ok" = some (.bool true))
    (hb : jget m "bids" = some (.arr bl))
    (ha : jget m "asks" = some (.arr al))
    (hts : jget m "ts" = some (.str ts))
    (hT : parseIso8601 ts = some T)
    (hB : mapOutcome parseBidElem bl = .ok B)
    (hA : mapOutcome parseAskElem al = .ok A) :
    stock_orderbook self net venue stock
      = .ok { bids := B, asks := A, timestamp := T } ∧
    B.length = bl.length ∧ A.length = al.length ∧
    (∀ o ∈ B, o.is_buy = true) ∧ (∀ o ∈ A, o.is_buy = false) ∧
    (∀ (i : Nat) (e : List (String × Json)) (p q : Nat),
       bl[i]? = some (.obj e) → jget e "price" = some (.num p) →
       jget e "qty" = some (.num q) →
       B[i]? = some { price := p, qty := q, is_buy := true }) ∧
    (∀ (i : Nat) (e : List (String × Json)) (p q : Nat),
       al[i]? = some (.obj e) → jget e "price" = some (.num p) →
       jget e "qty" = some (.num q) →
       A[i]? = some { price := p, qty := q, is_buy := false }) := by
  refine ⟨?_, mapOutcome_length _ _ _ hB, mapOutcome_length _ _ _ hA,
    ?_, ?_, ?_, ?_⟩
  · simp [stock_orderbook, send_raw, unwrapE, unwrapO, Outcome.bind,
      Json.as_object, Json.as_boolean, Json.as_array, Json.as_string,
      hnet, hok, hb, ha, hts, hT, hB, hA]
  · intro o ho
    obtain ⟨x, -, hx⟩ := mapOutcome_mem _ _ _ hB o ho
    exact parseBidElem_is_buy x o hx
  · intro o ho
    obtain ⟨x, -, hx⟩ := mapOutcome_mem _ _ _ hA o ho
    exact parseAskElem_is_buy x o hx
  · intro i e p q hi hp hq
    obtain ⟨y, hy, hfy⟩ := mapOutcome_get? _ _ _ hB i _ hi
    rw [parseBidElem_fields e p q hp hq] at hfy
    cases hfy
    exact hy
  · intro i e p q hi hp hq
    obtain ⟨y, hy, hfy⟩ := mapOutcome_get? _ _ _ hA i _ hi
    rw [parseAskElem_fields e p q hp hq] at hfy
    cases hfy
    exact hy

theorem orderbook_maps_bids_and_asks_witness :
    stock_orderbook apiW
        (netOf [("ok", .bool true),
                ("bids", .arr [.obj [("price", .num 100), ("qty", .num 5)]]),
                ("asks", .arr [.obj [("price", .num 110), ("qty", .num 3)]]),
                ("ts", .str "2015-07-05T22:16:18+00:00")])
        "TESTEX" "FOOBAR"
      = .ok { bids := [{ price := 100, qty := 5, is_buy := true }],
              asks := [{ price := 110, qty := 3, is_buy := false }],
              timestamp := { year := 2015, month := 7, day := 5, hour := 22,
                             minute := 16, second := 18, nano := 0 } } :=
  (orderbook_maps_bids_and_asks apiW
    (netOf [("ok", .bool true),
            ("bids", .arr [.obj [("price", .num 100), ("qty", .num 5)]]),
            ("asks", .arr [.obj [("price", .num 110), ("qty", .num 3)]]),
            ("ts", .str "2015-07-05T22:16:18+00:00")])
    [("ok", .bool true),
     ("bids", .arr [.obj [("price", .num 100), ("qty", .num 5)]]),
     ("asks", .arr [.obj [("price", .num 110), ("qty", .num 3)]]),
     ("ts", .str "2015-07-05T22:16:18+00:00")]
    [.obj [("price", .num 100), ("qty", .num 5)]]
    [.obj [("price", .num 110), ("qty", .num 3)]]
    "2015-07-05T22:16:18+00:00" "TESTEX" "FOOBAR"
    { year := 2015, month := 7, day := 5, hour := 22, minute := 16,
      second := 18, nano := 0 }
    [{ price := 100, qty := 5, is_buy := true }]
    [{ price := 110, qty := 3, is_buy := false }]
    (fun _ _ => rfl) rfl rfl rfl rfl rfl rfl rfl).1

/-- C4: in the venues operation, a venue element whose `state` string is
`"open"` yields `is_open = true` (`v1`), one whose `state` is `"closed"`
yields `is_open = false` (`v2`), and any other `state` string makes the
element mapping — and with it the whole venues call — panic (`v3`); the
string is never coerced to a boolean. -/
theorem venue_state_string_mapping
    (self : StockfighterHttpApi) (net3 : Net)
    (v1 v2 v3 : List (String × Json)) (i1 i2 : Nat)
    (n1 n2 ve1 ve2 s : String)
    (h1state : jget v1 "state" = some (.str "open"))
    (h1id : jget v1 "id" = some (.num i1))
    (h1name : jget v1 "name" = some (.str n1))
    (h1venue : jget v1 "venue" = some (.str ve1))
    (h2state : jget v2 "state" = some (.str "closed"))
    (h2id : jget v2 "id" = some (.num i2))
    (h2name : jget v2 "name" = some (.str n2))
    (h2venue : jget v2 "venue" = some (.str ve2))
    (h3state : jget v3 "state" = some (.str s))
    (hs1 : s ≠ "open") (hs2 : s ≠ "closed")
    (hnet3 : ∀ url key, net3 url key =
       .body (some (.obj [("id", .bool true),
                          ("venues", .arr [.obj v3])]))) :
    parseVenueElem (.obj v1)
      = .ok { id := i1, name := n1, is_open := true, venue := ve1 } ∧
    parseVenueElem (.obj v2)
      = .ok { id := i2, name := n2, is_open := false, venue := ve2 } ∧
    parseVenueElem (.obj v3) = .fatal ∧
    venues self net3 = .fatal := by
  have h3 : parseVenueElem (.obj v3) = .fatal := by
    simp [parseVenueElem, unwrapO, Outcome.bind, Json.as_object,
      Json.as_string, h3state, beq_iff_eq, hs1, hs2]
  have hid3 : jget [("id", Json.bool true),
      ("venues", Json.arr [Json.obj v3])] "id" = some (Json.bool true) := rfl
  have hvs3 : jget [("id", Json.bool true),
      ("venues", Json.arr [Json.obj v3])] "venues"
      = some (Json.arr [Json.obj v3]) := rfl
  refine ⟨?_, ?_, h3, ?_⟩
  · simp [parseVenueElem, unwrapO, Outcome.bind, Json.as_object,
      Json.as_string, Json.as_u64, h1state, h1id, h1name, h1venue]
  · simp [parseVenueElem, unwrapO, Outcome.bind, Json.as_object,
      Json.as_string, Json.as_u64, h2state, h2id, h2name, h2venue]
  · simp [venues, send_raw, unwrapE, unwrapO, Outcome.bind, Json.as_object,
      Json.as_boolean, Json.as_array, mapOutcome, hnet3, hid3, hvs3, h3]

theorem venue_state_string_mapping_witness :
    parseVenueElem (.obj [("id", .num 1), ("name", .str "Test Exchange"),
                          ("venue", .str "TESTEX"), ("state", .str "open")])
      = .ok { id := 1, name := "Test Exchange", is_open := true,
              venue := "TESTEX" } ∧
    parseVenueElem (.obj [("id", .num 2), ("name", .str "Other Exchange"),
                          ("venue", .str "OTHEX"), ("state", .str "closed")])
      = .ok { id := 2, name := "Other Exchange", is_open := false,
              venue := "OTHEX" } ∧
    parseVenueElem (.obj [("id", .num 3), ("name", .str "Odd Exchange"),
                          ("venue", .str "ODDEX"), ("state", .str "halted")])
      = .fatal ∧
    venues apiW
        (netOf [("id", .bool true),
                ("venues", .arr [.obj [("id", .num 3),
                  ("name", .str "Odd Exchange"), ("venue", .str "ODDEX"),
                  ("state", .str "halted")]])]) = .fatal :=
  venue_state_string_mapping apiW
    (netOf [("id", .bool true),
            ("venues", .arr [.obj [("id", .num 3),
              ("name", .str "Odd Exchange"), ("venue", .str "ODDEX"),
              ("state", .str "halted")]])])
    [("id", .num 1), ("name", .str "Test Exchange"),
     ("venue", .str "TESTEX"), ("state", .str "open")]
    [("id", .num 2), ("name", .str "Other Exchange"),
     ("venue", .str "OTHEX"), ("state", .str "closed")]
    [("id", .num 3), ("name", .str "Odd Exchange"),
     ("venue", .str "ODDEX"), ("state", .str "halted")]
    1 2 "Test Exchange" "Other Exchange" "TESTEX" "OTHEX" "halted"
    rfl rfl rfl rfl rfl rfl rfl rfl rfl
    (by decide) (by decide) (fun _ _ => rfl)

/-- C8: the `ts` field is parsed with the strict ISO-8601-with-offset format
(`parseIso8601`, modelling chrono's `%+`); whenever the `ts` string does not
match that format, stock_orderbook panics instead of producing a timestamp. -/
theorem bad_timestamp_panics
    (self : StockfighterHttpApi) (net : Net) (m : List (String × Json))
    (bl al : List Json) (ts venue stock : String)
    (hnet : ∀ url key, net url key = .body (some (.obj m)))
    (hok : jget m "ok" = some (.bool true))
    (hb : jget m "bids" = some (.arr bl))
    (ha : jget m "asks" = some (.arr al))
    (hts : jget m "ts" = some (.str ts))
    (hbad : parseIso8601 ts = none) :
    stock_orderbook self net venue stock = .fatal := by
  simp [stock_orderbook, send_raw, unwrapE, unwrapO, Outcome.bind,
    Json.as_object, Json.as_boolean, Json.as_array, Json.as_string,
    hnet, hok, hb, ha, hts, hbad]

theorem bad_timestamp_panics_witness :
    stock_orderbook apiW
        (netOf [("ok", .bool true), ("bids", .arr []), ("asks", .arr []),
                ("ts", .str "2015-07-05 22:16:18")])
        "TESTEX" "FOOBAR" = .fatal :=
  bad_timestamp_panics apiW
    (netOf [("ok", .bool true), ("bids", .arr []), ("asks", .arr []),
            ("ts", .str "2015-07-05 22:16:18")])
    [("ok", .bool true), ("bids", .arr []), ("asks", .arr []),
     ("ts", .str "2015-07-05 22:16:18")]
    [] [] "2015-07-05 22:16:18" "TESTEX" "FOOBAR"
    (fun _ _ => rfl) rfl rfl rfl rfl rfl

end Stockfighter
